import Mathlib

/-!
Shallow embedding of the entity-identity layer of the taipy-core sample:
the `Scope` hierarchy, the data-node manager (`_create_and_set`, `_get`,
`_set`, `_get_or_create`), the repository (`load`), and the `Task`
aggregation model from `taipy/core/task/task.py`.
-/

/-- Modelled from the spec: the `Scope` enumeration
(`taipy/core/data/scope.py` is absent from the sources).  Ordered levels,
broadest to narrowest: `GLOBAL < CYCLE < SCENARIO < PIPELINE`; `min`
selects the broadest level. -/
inductive Scope where
  | GLOBAL
  | CYCLE
  | SCENARIO
  | PIPELINE
  deriving DecidableEq

/-- Ordinal position of a scope in the order `GLOBAL < CYCLE < SCENARIO < PIPELINE`. -/
def Scope.ord : Scope → Nat
  | Scope.GLOBAL => 0
  | Scope.CYCLE => 1
  | Scope.SCENARIO => 2
  | Scope.PIPELINE => 3

/-- Binary `min` on scopes, following Python `min` on the ordered enum
(ties keep the left argument). -/
def scopeMin (a b : Scope) : Scope := if a.ord ≤ b.ord then a else b

/-- Modelled from the spec: a data-node entity
(`taipy/core/data/data_node.py` is absent from the sources).  Only the
identity-relevant fields are embedded; `storage_kind` records which
concrete variant constructor produced the entity. -/
structure DataNode where
  id : String
  config_id : String
  storage_kind : String
  scope : Scope
  parent_id : Option String
  properties : List (String × String)
  deriving DecidableEq

/-- Modelled from the spec: a data-node configuration
(`taipy/core/config/data_node_config.py` is absent from the sources):
exposes `id`, `storage_type`, `scope` and an open `properties` mapping. -/
structure DataNodeConfig where
  id : String
  storage_type : String
  scope : Scope
  properties : List (String × String)
  deriving DecidableEq

/-- Modelled from the spec: the closed set of recognized storage type tags
(csv / in-memory / pickle / sql). -/
def storageTypes : List String := ["csv", "in_memory", "pickle", "sql"]

/-- Unary rendering of the uuid supply: the n-th fresh uuid is a string of
n hyphen characters (hyphens never occur in validated identifiers, as in
the hex-and-hyphen uuid4 strings of the source). -/
def uuidStr (n : Nat) : String := String.mk (List.replicate n '-')

/-- Id assigned to a freshly created data node:
`DATANODE_<config_id>_<uuid>` as in the source id format. -/
def dnId (config_id : String) (n : Nat) : String :=
  ("DATANODE" ++ "_") ++ config_id ++ ("_" ++ uuidStr n)

/-- Modelled from the spec: `Repository.save` upserts by entity id
(`_data_repository.py` is absent from the sources). -/
def repoSave (dn : DataNode) (repo : List DataNode) : List DataNode :=
  if repo.any (fun d => d.id == dn.id) then
    repo.map (fun d => if d.id == dn.id then dn else d)
  else repo ++ [dn]

/-- Modelled from the spec: errors surfaced by the repository. -/
inductive RepoError where
  | ModelNotFound
  deriving DecidableEq

/-- Modelled from the spec: errors surfaced by the data manager. -/
inductive DNError where
  | InvalidDataNodeType
  deriving DecidableEq

/-- Modelled from the spec: `Repository.load` returns the entity stored
under the id and fails with `ModelNotFound` if absent. -/
def repoLoad (repo : List DataNode) (i : String) : Except RepoError DataNode :=
  match repo.find? (fun d => d.id == i) with
  | some dn => Except.ok dn
  | none => Except.error RepoError.ModelNotFound

/-- State of the data manager: the repository contents plus the uuid
supply counter (each creation consumes one fresh uuid). -/
structure ManagerState where
  repo : List DataNode
  counter : Nat
  deriving DecidableEq

/-- Modelled from the spec: `_DataManager._get` — soft lookup by id,
returning an absence marker instead of raising
(`_data_manager.py` is absent from the sources). -/
def managerGet (st : ManagerState) (i : String) : Option DataNode :=
  st.repo.find? (fun d => d.id == i)

/-- Modelled from the spec: `_DataManager._set` — upsert of the entity. -/
def managerSet (dn : DataNode) (st : ManagerState) : ManagerState :=
  { repo := repoSave dn st.repo, counter := st.counter }

/-- Modelled from the spec: the variant dispatch inside
`_DataManager._create_and_set`: an unrecognized `storage_type` tag fails
with `InvalidDataNodeType`; a recognized tag builds the matching concrete
variant, copying the configuration's properties and assigning the fresh
id `DATANODE_<config_id>_<uuid>`. -/
def mkNode (cfg : DataNodeConfig) (parent : Option String) (n : Nat) : DataNode :=
  { id := dnId cfg.id n
    config_id := cfg.id
    storage_kind := cfg.storage_type
    scope := cfg.scope
    parent_id := parent
    properties := cfg.properties }

/-- Dispatch step of `_create_and_set`: fail on an unrecognized tag,
otherwise build the matching variant. -/
def createDataNode (cfg : DataNodeConfig) (parent : Option String) (n : Nat) :
    Except DNError DataNode :=
  if storageTypes.contains cfg.storage_type then Except.ok (mkNode cfg parent n)
  else Except.error DNError.InvalidDataNodeType

/-- Modelled from the spec: `_DataManager._create_and_set` — create the
entity from the configuration and persist it; on a dispatch failure the
state is returned unchanged (nothing is persisted). -/
def createAndSet (cfg : DataNodeConfig) (parent : Option String) (st : ManagerState) :
    ManagerState × Except DNError DataNode :=
  match createDataNode cfg parent st.counter with
  | Except.ok dn =>
      ({ repo := repoSave dn st.repo, counter := st.counter + 1 }, Except.ok dn)
  | Except.error e => (st, Except.error e)

/-- Modelled from the spec: parent-id resolution inside
`_DataManager._get_or_create`, as exercised by
`TestDataManager.test_get_or_create`: `pipeline_id` for PIPELINE scope,
`scenario_id` for SCENARIO scope, `None` otherwise. -/
def resolveParent (scope : Scope) (scenario_id pipeline_id : Option String) :
    Option String :=
  match scope with
  | Scope.PIPELINE => pipeline_id
  | Scope.SCENARIO => scenario_id
  | _ => none

/-- First persisted entity whose `config_id` and `parent_id` match the
composite resolution key. -/
def matchingNode (st : ManagerState) (cid : String) (parent : Option String) :
    Option DataNode :=
  st.repo.find? (fun d => d.config_id == cid && d.parent_id == parent)

/-- Modelled from the spec: `_DataManager._get_or_create`
(`_data_manager.py` is absent from the sources; the composite key is the
one pinned by `TestDataManager.test_get_or_create`): resolve the parent
id from the configuration's scope, scan for an entity matching
`(config_id, parent_id)`, return the match unchanged, or create and
persist a new entity. -/
def getOrCreate (cfg : DataNodeConfig) (scenario_id pipeline_id : Option String)
    (st : ManagerState) : ManagerState × Except DNError DataNode :=
  let parent := resolveParent cfg.scope scenario_id pipeline_id
  match matchingNode st cfg.id parent with
  | some dn => (st, Except.ok dn)
  | none => createAndSet cfg parent st

/-- Modelled from the spec: `_validate_id`
(`taipy/core/common/_validate_id.py` is absent from the sources):
an identifier is alphanumeric plus underscore, with no leading digit. -/
def isValidIdStart (c : Char) : Bool := c.isAlpha || c == '_'

/-- A non-leading identifier character: alphanumeric or underscore. -/
def isValidIdChar (c : Char) : Bool := c.isAlphanum || c == '_'

/-- Whole-string identifier validation: non-empty, valid leading
character, all remaining characters valid. -/
def isValidId (s : String) : Bool :=
  match s.toList with
  | [] => false
  | c :: rest => isValidIdStart c && rest.all isValidIdChar

/-- First-match lookup in an association list, the model of Python
`d[k]` / `k in d` on the dictionaries built below. -/
def dictGet? : List (String × α) → String → Option α
  | [], _ => none
  | p :: rest, k => if p.1 = k then some p.2 else dictGet? rest k

/-- Python-dict insertion: replace the value at an existing key in place,
otherwise append the new binding at the end. -/
def dictInsert (k : String) (v : α) : List (String × α) → List (String × α)
  | [] => [(k, v)]
  | p :: rest => if p.1 = k then (k, v) :: rest else p :: dictInsert k v rest

/-- The dict comprehension in `Task.__init__`:
`{dn.config_id: dn for dn in nodes}`. -/
def dictOfNodes (nodes : List DataNode) : List (String × DataNode) :=
  nodes.foldl (fun d dn => dictInsert dn.config_id dn d) []

/-- Python dict merge `{**a, **b}`: entries of `b` inserted into `a`,
overriding on key collision. -/
def pyDictUnion (a b : List (String × α)) : List (String × α) :=
  b.foldl (fun d p => dictInsert p.1 p.2 d) a

namespace Taipy

/-- The `Task` entity of `taipy/core/task/task.py`: identity fields plus
the `input` and `output` dictionaries keyed by data-node `config_id`
(the opaque `function` field plays no role in the embedded claims;
`Task` is namespaced only because the name is taken by the Lean core
library). -/
structure Task where
  config_id : String
  id : String
  parent_id : Option String
  input : List (String × DataNode)
  output : List (String × DataNode)
  deriving DecidableEq

/-- The generated task id `"_".join([TASK, config_id, uuid])` of
`Task.__init__`. -/
def taskIdOf (config_id uuid : String) : String :=
  (("TASK" ++ "_") ++ config_id) ++ ("_" ++ uuid)

/-- `Task.__init__`: validates `config_id` (failure is `none`), keeps a
supplied truthy id unchanged, generates `TASK_<config_id>_<uuid>` when
the id argument is `None` or empty (Python `id or ...`), and builds the
input and output dictionaries by comprehension over the iterables.  The
fresh uuid is passed in as the model of `uuid.uuid4()`. -/
def Task.create (config_id : String) (input output : List DataNode)
    (id : Option String) (parent_id : Option String) (uuid : String) : Option Task :=
  if isValidId config_id then
    some
      { config_id := config_id
        id :=
          match id with
          | none => taskIdOf config_id uuid
          | some i => if i == "" then taskIdOf config_id uuid else i
        parent_id := parent_id
        input := dictOfNodes input
        output := dictOfNodes output }
  else none

/-- `Task.data_nodes`: the dict merge `{**self.input, **self.output}`. -/
def Task.data_nodes (t : Task) : List (String × DataNode) :=
  pyDictUnion t.input t.output

/-- `Task.__getattr__`: validate the attribute name, resolve it against
`input` first, then `output`, and otherwise fail with the
`"... is not an attribute of task <id>"` message; a name rejected by
`_validate_id` fails with the validation error instead (modelled from
the spec, `_validate_id.py` being absent from the sources). -/
def Task.getattr (t : Task) (name : String) : Except String DataNode :=
  if isValidId name then
    match dictGet? t.input name with
    | some dn => Except.ok dn
    | none =>
      match dictGet? t.output name with
      | some dn => Except.ok dn
      | none => Except.error ((name ++ (" is not an attribute of task ")) ++ t.id)
  else Except.error (name ++ (" is not a valid identifier."))

/-- All data nodes attached to a task
(`list(self.__input.values()) + list(self.__output.values())`), mapped
to their scopes. -/
def attachedScopes (t : Task) : List Scope :=
  ((t.input.map Prod.snd) ++ (t.output.map Prod.snd)).map DataNode.scope

/-- `Task.scope`: `min(dn.scope for dn in data_nodes)` when some data
node is attached, `GLOBAL` otherwise. -/
def Task.scope (t : Task) : Scope :=
  match attachedScopes t with
  | [] => Scope.GLOBAL
  | s :: rest => rest.foldl scopeMin s

end Taipy

/-- A heap of property mappings, making sharing explicit: a Python dict
object is a cell, and configurations and entities hold cell handles. -/
structure PropHeap where
  cells : List (List (String × String))
  deriving DecidableEq

/-- Contents of the cell behind a handle. -/
def heapRead (h : PropHeap) (i : Nat) : List (String × String) :=
  h.cells.getD i []

/-- In-place mutation of the cell behind a handle. -/
def heapWrite (h : PropHeap) (i : Nat) (v : List (String × String)) : PropHeap :=
  { cells := h.cells.set i v }

/-- Allocation of a fresh cell holding the given contents. -/
def heapAlloc (h : PropHeap) (v : List (String × String)) : Nat × PropHeap :=
  (h.cells.length, { cells := h.cells ++ [v] })

/-- A configuration owning a properties cell. -/
structure ConfigRef where
  config_id : String
  props : Nat
  deriving DecidableEq

/-- An entity owning a properties cell. -/
structure EntityRef where
  id : String
  props : Nat
  deriving DecidableEq

/-- Modelled from the spec: the property copy performed at entity
creation (`DataNode.__init__` / `_DataManager._create_and_set`,
`data_node.py` being absent from the sources): the new entity's
properties cell is a fresh cell holding a copy of the configuration's
current properties, never the configuration's own cell. -/
def createEntityFromConfig (cfg : ConfigRef) (ident : String) (h : PropHeap) :
    EntityRef × PropHeap :=
  let a := heapAlloc h (heapRead h cfg.props)
  ({ id := ident, props := a.1 }, a.2)

/-- Last data node with the given `config_id` in a list, the value a
Python dict comprehension keeps for a duplicated key. -/
def lastWith : List DataNode → String → Option DataNode
  | [], _ => none
  | dn :: rest, k =>
    match lastWith rest k with
    | some d => some d
    | none => if dn.config_id = k then some dn else none

/-- Empty manager state. -/
def st0 : ManagerState := { repo := [], counter := 0 }

/-- The GLOBAL-scoped configuration of `TestDataManager.test_get_or_create`. -/
def gCfg : DataNodeConfig :=
  { id := "test_data_node", storage_type := "in_memory", scope := Scope.GLOBAL,
    properties := [] }

/-- The SCENARIO-scoped configuration of `TestDataManager.test_get_or_create`. -/
def sCfg : DataNodeConfig :=
  { id := "test_data_node2", storage_type := "in_memory", scope := Scope.SCENARIO,
    properties := [] }

/-- The PIPELINE-scoped configuration of `TestDataManager.test_get_or_create`. -/
def pCfg : DataNodeConfig :=
  { id := "test_data_node2", storage_type := "in_memory", scope := Scope.PIPELINE,
    properties := [] }

/-- State after creating the PIPELINE-scoped node under
`("scenario_id", "pipeline_2")`, as in the test. -/
def pipeSt1 : ManagerState :=
  (getOrCreate pCfg (some ("scenario_id")) (some ("pipeline_2")) st0).1

/-- A csv configuration, as in `test_create_and_get_csv_data_node`. -/
def csvCfg : DataNodeConfig :=
  { id := "foo", storage_type := "csv", scope := Scope.SCENARIO,
    properties := [("path", "bar"), ("has_header", "True")] }

/-- A configuration with an unrecognized storage type, as in
`test_create_raises_exception_with_wrong_type`. -/
def badCfg : DataNodeConfig :=
  { id := "foo", storage_type := "bar", scope := Scope.SCENARIO, properties := [] }

/-- A SCENARIO-scoped data node fixture. -/
def dnS : DataNode :=
  { id := "DATANODE_a_u1", config_id := "a", storage_kind := "in_memory",
    scope := Scope.SCENARIO, parent_id := none, properties := [] }

/-- A PIPELINE-scoped data node fixture. -/
def dnP : DataNode :=
  { id := "DATANODE_b_u2", config_id := "b", storage_kind := "in_memory",
    scope := Scope.PIPELINE, parent_id := none, properties := [] }

/-- A PIPELINE-scoped data node sharing `dnS`'s config id. -/
def dnP2 : DataNode :=
  { id := "DATANODE_a_u3", config_id := "a", storage_kind := "in_memory",
    scope := Scope.PIPELINE, parent_id := none, properties := [] }

/-- A task with one SCENARIO-scoped input and one PIPELINE-scoped output. -/
def tEx : Taipy.Task :=
  { config_id := "t", id := "TASK_t_u", parent_id := none,
    input := [("a", dnS)], output := [("b", dnP)] }

/-- A task whose input and output dictionaries share the key `a`. -/
def tBoth : Taipy.Task :=
  { config_id := "t", id := "TASK_t_u2", parent_id := none,
    input := [("a", dnS)], output := [("a", dnP2)] }

/-- A one-cell property heap fixture. -/
def heap1 : PropHeap := { cells := [[("foo", "bar")]] }

/-- A configuration reference owning the cell of `heap1`. -/
def cfgRef1 : ConfigRef := { config_id := "name", props := 0 }

/-! Helper lemmas. -/

theorem uuidStr_length (n : Nat) : (uuidStr n).length = n := by
  simp [uuidStr]

theorem dnId_ne (c : String) {m n : Nat} (h : m ≠ n) : dnId c m ≠ dnId c n := by
  intro he
  have hl := congrArg String.length he
  simp [dnId, uuidStr_length] at hl
  omega

theorem mkNode_id (cfg : DataNodeConfig) (parent : Option String) (n : Nat) :
    (mkNode cfg parent n).id = dnId cfg.id n := rfl

theorem repoSave_of_fresh (dn : DataNode) (repo : List DataNode)
    (h : ∀ d ∈ repo, d.id ≠ dn.id) : repoSave dn repo = repo ++ [dn] := by
  have ha : repo.any (fun d => d.id == dn.id) = false := by
    rw [List.any_eq_false]
    intro d hd
    simpa using h d hd
  simp [repoSave, ha]

theorem createAndSet_of_recognized (cfg : DataNodeConfig) (parent : Option String)
    (st : ManagerState) (hrec : storageTypes.contains cfg.storage_type = true) :
    createAndSet cfg parent st
      = ({ repo := repoSave (mkNode cfg parent st.counter) st.repo,
           counter := st.counter + 1 },
         Except.ok (mkNode cfg parent st.counter)) := by
  have hmem : cfg.storage_type ∈ storageTypes := by simpa using hrec
  simp [createAndSet, createDataNode, hmem]

/-- C8: looking up an absent id through the manager's `get` yields the
absence marker `none`, while loading the same absent id through the
repository's `load` fails hard with `ModelNotFound`. -/
theorem get_soft_load_hard (st : ManagerState) (i : String)
    (h : ∀ dn ∈ st.repo, dn.id ≠ i) :
    managerGet st i = none ∧
    repoLoad st.repo i = Except.error RepoError.ModelNotFound := by
  have hf : st.repo.find? (fun d => d.id == i) = none := by
    rw [List.find?_eq_none]
    intro d hd
    simpa using h d hd
  exact ⟨hf, by simp [repoLoad, hf]⟩

theorem get_soft_load_hard_witness :
    managerGet st0 ("test_data_node_2") = none ∧
    repoLoad st0.repo ("test_data_node_2") = Except.error RepoError.ModelNotFound :=
  get_soft_load_hard st0 ("test_data_node_2") (by simp [st0])

/-- C9: `create_and_set` on a configuration whose storage type tag is
unrecognized fails with `InvalidDataNodeType` and persists nothing (the
manager state is unchanged); on the recognized tag `csv` it returns an
entity built by the csv variant, carrying the configuration's identity
and a copy of its properties. -/
theorem createAndSet_dispatch (cfg : DataNodeConfig) (parent : Option String)
    (st : ManagerState) :
    (storageTypes.contains cfg.storage_type = false →
      createAndSet cfg parent st = (st, Except.error DNError.InvalidDataNodeType)) ∧
    (cfg.storage_type = "csv" →
      ∃ dn, createAndSet cfg parent st
          = ({ repo := repoSave dn st.repo, counter := st.counter + 1 }, Except.ok dn) ∧
        dn.storage_kind = "csv" ∧ dn.config_id = cfg.id ∧
        dn.properties = cfg.properties) := by
  constructor
  · intro h
    have hmem : cfg.storage_type ∉ storageTypes := by simpa using h
    simp [createAndSet, createDataNode, hmem]
  · intro h
    have hrec : storageTypes.contains cfg.storage_type = true := by
      rw [h]; decide
    refine ⟨mkNode cfg parent st.counter, createAndSet_of_recognized cfg parent st hrec,
      ?_, rfl, rfl⟩
    simpa [mkNode] using h

theorem createAndSet_dispatch_witness :
    createAndSet badCfg none st0 = (st0, Except.error DNError.InvalidDataNodeType) ∧
    (∃ dn, createAndSet csvCfg none st0
        = ({ repo := repoSave dn st0.repo, counter := st0.counter + 1 }, Except.ok dn) ∧
      dn.storage_kind = "csv" ∧ dn.config_id = csvCfg.id ∧
      dn.properties = csvCfg.properties) :=
  ⟨(createAndSet_dispatch badCfg none st0).1 (by decide),
   (createAndSet_dispatch csvCfg none st0).2 rfl⟩

/-- C5: calling `create_and_set` twice with the same configuration
produces two entities with distinct fresh ids (no deduplication at this
layer), and both entities are retrievable afterwards.  The hypotheses
state the uuid-freshness guarantee: the two generated ids are not
already taken in the starting state. -/
theorem createAndSet_twice_new_ids (cfg : DataNodeConfig) (parent : Option String)
    (st : ManagerState)
    (hrec : storageTypes.contains cfg.storage_type = true)
    (h1 : ∀ d ∈ st.repo, d.id ≠ dnId cfg.id st.counter)
    (h2 : ∀ d ∈ st.repo, d.id ≠ dnId cfg.id (st.counter + 1)) :
    ∃ dn1 dn2,
      (createAndSet cfg parent st).2 = Except.ok dn1 ∧
      (createAndSet cfg parent (createAndSet cfg parent st).1).2 = Except.ok dn2 ∧
      dn1.id ≠ dn2.id ∧
      managerGet (createAndSet cfg parent (createAndSet cfg parent st).1).1 dn1.id
        = some dn1 ∧
      managerGet (createAndSet cfg parent (createAndSet cfg parent st).1).1 dn2.id
        = some dn2 := by
  have e1 := createAndSet_of_recognized cfg parent st hrec
  have hr1 : repoSave (mkNode cfg parent st.counter) st.repo
      = st.repo ++ [mkNode cfg parent st.counter] :=
    repoSave_of_fresh _ _ (fun d hd => h1 d hd)
  have e2 := createAndSet_of_recognized cfg parent
    ({ repo := st.repo ++ [mkNode cfg parent st.counter], counter := st.counter + 1 }) hrec
  have hne : (mkNode cfg parent st.counter).id ≠ (mkNode cfg parent (st.counter + 1)).id := by
    rw [mkNode_id, mkNode_id]
    exact dnId_ne cfg.id (by omega)
  have hf2 : ∀ d ∈ st.repo ++ [mkNode cfg parent st.counter],
      d.id ≠ (mkNode cfg parent (st.counter + 1)).id := by
    intro d hd
    rcases List.mem_append.mp hd with hmem | hmem
    · exact h2 d hmem
    · rw [List.mem_singleton.mp hmem]
      exact hne
  have hr2 : repoSave (mkNode cfg parent (st.counter + 1))
      (st.repo ++ [mkNode cfg parent st.counter])
      = (st.repo ++ [mkNode cfg parent st.counter]) ++ [mkNode cfg parent (st.counter + 1)] :=
    repoSave_of_fresh _ _ hf2
  refine ⟨mkNode cfg parent st.counter, mkNode cfg parent (st.counter + 1), ?_, ?_, hne, ?_, ?_⟩
  · rw [e1]
  · rw [e1, hr1]
    simpa using congrArg Prod.snd e2
  · rw [e1, hr1]
    have : (createAndSet cfg parent
        ({ repo := st.repo ++ [mkNode cfg parent st.counter], counter := st.counter + 1 })).1
        = { repo := (st.repo ++ [mkNode cfg parent st.counter])
              ++ [mkNode cfg parent (st.counter + 1)], counter := st.counter + 2 } := by
      rw [e2, hr2]
    rw [this]
    have hn1 : st.repo.find? (fun d => d.id == (mkNode cfg parent st.counter).id) = none := by
      rw [List.find?_eq_none]
      intro d hd
      simpa [mkNode_id] using h1 d hd
    simp [managerGet, List.find?_append, hn1]
  · rw [e1, hr1]
    have : (createAndSet cfg parent
        ({ repo := st.repo ++ [mkNode cfg parent st.counter], counter := st.counter + 1 })).1
        = { repo := (st.repo ++ [mkNode cfg parent st.counter])
              ++ [mkNode cfg parent (st.counter + 1)], counter := st.counter + 2 } := by
      rw [e2, hr2]
    rw [this]
    have hn1 : st.repo.find? (fun d => d.id == (mkNode cfg parent (st.counter + 1)).id)
        = none := by
      rw [List.find?_eq_none]
      intro d hd
      simpa [mkNode_id] using h2 d hd
    simp [managerGet, List.find?_append, hn1, hne]

theorem createAndSet_twice_new_ids_witness :
    ∃ dn1 dn2,
      (createAndSet csvCfg none st0).2 = Except.ok dn1 ∧
      (createAndSet csvCfg none (createAndSet csvCfg none st0).1).2 = Except.ok dn2 ∧
      dn1.id ≠ dn2.id ∧
      managerGet (createAndSet csvCfg none (createAndSet csvCfg none st0).1).1 dn1.id
        = some dn1 ∧
      managerGet (createAndSet csvCfg none (createAndSet csvCfg none st0).1).1 dn2.id
        = some dn2 :=
  createAndSet_twice_new_ids csvCfg none st0 (by decide) (by simp [st0]) (by simp [st0])

/-- C1 (amended): `get_or_create` returns an already-persisted entity
unchanged (same id, no re-persist) if and only if an existing entity
matches the composite key `(config_id, parent_id)`, where the parent id
resolves from the configuration's scope to the pipeline id for PIPELINE
scope, the scenario id for SCENARIO scope, and `None` for GLOBAL and
CYCLE scope; otherwise it creates, persists, and returns a new entity.
In particular the `pipeline_id` argument is irrelevant for a
SCENARIO-scoped config, and the `scenario_id` argument is irrelevant for
a PIPELINE-scoped config — only a changed pipeline id yields a new
entity there. -/
theorem getOrCreate_scope_key (cfg : DataNodeConfig) (s p : Option String)
    (st : ManagerState) :
    (∀ e, matchingNode st cfg.id (resolveParent cfg.scope s p) = some e →
      getOrCreate cfg s p st = (st, Except.ok e)) ∧
    (matchingNode st cfg.id (resolveParent cfg.scope s p) = none →
     storageTypes.contains cfg.storage_type = true →
     (∀ d ∈ st.repo, d.id ≠ dnId cfg.id st.counter) →
      ∃ dn, getOrCreate cfg s p st
          = ({ repo := st.repo ++ [dn], counter := st.counter + 1 }, Except.ok dn) ∧
        dn.config_id = cfg.id ∧
        dn.parent_id = resolveParent cfg.scope s p ∧
        ∀ d ∈ st.repo, d.id ≠ dn.id) ∧
    (cfg.scope = Scope.SCENARIO →
      ∀ p', getOrCreate cfg s p st = getOrCreate cfg s p' st) ∧
    (cfg.scope = Scope.PIPELINE →
      ∀ s', getOrCreate cfg s p st = getOrCreate cfg s' p st) := by
  refine ⟨?_, ?_, ?_, ?_⟩
  · intro e he
    simp [getOrCreate, he]
  · intro hnone hrec hfresh
    refine ⟨mkNode cfg (resolveParent cfg.scope s p) st.counter, ?_, rfl, rfl, ?_⟩
    · have hr := repoSave_of_fresh (mkNode cfg (resolveParent cfg.scope s p) st.counter)
        st.repo (fun d hd => by rw [mkNode_id]; exact hfresh d hd)
      simp [getOrCreate, hnone, createAndSet_of_recognized _ _ _ hrec, hr]
    · intro d hd
      rw [mkNode_id]
      exact hfresh d hd
  · intro hs p'
    simp [getOrCreate, resolveParent, hs]
  · intro hp s'
    simp [getOrCreate, resolveParent, hp]

theorem getOrCreate_scope_key_witness :
    getOrCreate pCfg (some ("other_scenario_id")) (some ("pipeline_2")) pipeSt1
      = (pipeSt1, Except.ok (mkNode pCfg (some ("pipeline_2")) 0)) ∧
    (∃ dn, getOrCreate pCfg (some ("scenario_id")) (some ("pipeline_2")) st0
        = ({ repo := st0.repo ++ [dn], counter := st0.counter + 1 }, Except.ok dn) ∧
      dn.config_id = pCfg.id ∧
      dn.parent_id = resolveParent pCfg.scope (some ("scenario_id")) (some ("pipeline_2")) ∧
      ∀ d ∈ st0.repo, d.id ≠ dn.id) ∧
    getOrCreate sCfg (some ("scenario_id")) (some ("whatever_pipeline_id")) st0
      = getOrCreate sCfg (some ("scenario_id")) none st0 :=
  ⟨(getOrCreate_scope_key pCfg (some ("other_scenario_id")) (some ("pipeline_2")) pipeSt1).1
      (mkNode pCfg (some ("pipeline_2")) 0) (by decide),
   (getOrCreate_scope_key pCfg (some ("scenario_id")) (some ("pipeline_2")) st0).2.1
      (by decide) (by decide) (by simp [st0]),
   (getOrCreate_scope_key sCfg (some ("scenario_id")) (some ("whatever_pipeline_id")) st0).2.2.1
      rfl none⟩

/-- C1 is false as stated: for the PIPELINE-scoped configuration of
`TestDataManager.test_get_or_create`, after creating the node under
`("scenario_id", "pipeline_2")`, calling `get_or_create` with a changed
scenario id and the same pipeline id returns the already-persisted
entity and creates nothing (the repository still holds exactly one
entity), instead of yielding a new entity as the claim requires. -/
theorem getOrCreate_pipeline_ignores_scenario_cex :
    (getOrCreate pCfg (some ("other_scenario_id")) (some ("pipeline_2")) pipeSt1).1
      = pipeSt1 ∧
    pipeSt1.repo.length = 1 ∧
    (getOrCreate pCfg (some ("other_scenario_id")) (some ("pipeline_2")) pipeSt1).2
      = (getOrCreate pCfg (some ("scenario_id")) (some ("pipeline_2")) st0).2 :=
  ⟨by decide, by decide, rfl⟩

theorem foldl_scopeMin_spec (l : List Scope) (s : Scope) :
    Scope.ord (l.foldl scopeMin s) ≤ Scope.ord s ∧
    (∀ x ∈ l, Scope.ord (l.foldl scopeMin s) ≤ Scope.ord x) ∧
    (l.foldl scopeMin s = s ∨ l.foldl scopeMin s ∈ l) := by
  induction l generalizing s with
  | nil => simp
  | cons a tl ih =>
    have hsa1 : Scope.ord (scopeMin s a) ≤ Scope.ord s := by
      unfold scopeMin; split <;> omega
    have hsa2 : Scope.ord (scopeMin s a) ≤ Scope.ord a := by
      unfold scopeMin; split <;> omega
    have hsa3 : scopeMin s a = s ∨ scopeMin s a = a := by
      unfold scopeMin; split
      · exact Or.inl rfl
      · exact Or.inr rfl
    obtain ⟨ih1, ih2, ih3⟩ := ih (scopeMin s a)
    refine ⟨le_trans ih1 hsa1, ?_, ?_⟩
    · intro x hx
      rcases List.mem_cons.mp hx with rfl | hx
      · exact le_trans ih1 hsa2
      · exact ih2 x hx
    · rcases ih3 with he | he
      · rcases hsa3 with h | h
        · exact Or.inl (by rw [List.foldl_cons, he, h])
        · refine Or.inr ?_
          rw [List.foldl_cons, he, h]
          exact List.mem_cons_self a tl
      · exact Or.inr (List.mem_cons_of_mem a he)

/-- C2: a task's derived `scope` is `GLOBAL` when no data node is
attached, and otherwise is the broadest (minimum-ordinal under
`GLOBAL < CYCLE < SCENARIO < PIPELINE`) scope among all attached data
nodes — it belongs to the attached scopes and is below all of them; the
computation is a pure function of the task. -/
theorem task_scope_broadest (t : Taipy.Task) :
    (Taipy.attachedScopes t = [] → Taipy.Task.scope t = Scope.GLOBAL) ∧
    (Taipy.attachedScopes t ≠ [] →
      Taipy.Task.scope t ∈ Taipy.attachedScopes t ∧
      ∀ s ∈ Taipy.attachedScopes t, Scope.ord (Taipy.Task.scope t) ≤ Scope.ord s) := by
  constructor
  · intro h
    simp [Taipy.Task.scope, h]
  · intro h
    cases hl : Taipy.attachedScopes t with
    | nil => exact absurd hl h
    | cons s rest =>
      have hsc : Taipy.Task.scope t = rest.foldl scopeMin s := by
        simp [Taipy.Task.scope, hl]
      obtain ⟨h1, h2, h3⟩ := foldl_scopeMin_spec rest s
      constructor
      · rw [hsc]
        rcases h3 with he | he
        · rw [he]; exact List.mem_cons_self s rest
        · exact List.mem_cons_of_mem s he
      · intro x hx
        rcases List.mem_cons.mp hx with rfl | hx
        · rw [hsc]; exact h1
        · rw [hsc]; exact h2 x hx

theorem task_scope_broadest_witness :
    Taipy.attachedScopes tEx ≠ [] ∧
    (Taipy.Task.scope tEx ∈ Taipy.attachedScopes tEx ∧
      ∀ s ∈ Taipy.attachedScopes tEx, Scope.ord (Taipy.Task.scope tEx) ≤ Scope.ord s) ∧
    Taipy.Task.scope tEx = Scope.SCENARIO :=
  ⟨by decide, (task_scope_broadest tEx).2 (by decide), by decide⟩

theorem dictGet?_dictInsert {α : Type} (k : String) (v : α) (d : List (String × α))
    (k' : String) :
    dictGet? (dictInsert k v d) k' = if k' = k then some v else dictGet? d k' := by
  induction d with
  | nil =>
    by_cases h : k' = k
    · subst h; simp [dictInsert, dictGet?]
    · simp [dictInsert, dictGet?, h, Ne.symm h]
  | cons p rest ih =>
    by_cases h1 : p.1 = k
    · by_cases h2 : k' = k
      · subst h2
        simp [dictInsert, dictGet?, h1]
      · simp [dictInsert, dictGet?, h1, h2, Ne.symm h2]
    · by_cases h2 : k' = k
      · subst h2
        simp [dictInsert, dictGet?, h1, ih]
      · simp [dictInsert, dictGet?, h1, h2, ih]

theorem dictGet?_eq_none_of_not_mem_keys {α : Type} (d : List (String × α)) (k : String)
    (h : k ∉ d.map Prod.fst) : dictGet? d k = none := by
  induction d with
  | nil => rfl
  | cons p rest ih =>
    simp only [List.map_cons, List.mem_cons] at h
    push_neg at h
    simp [dictGet?, Ne.symm h.1, ih h.2]

theorem dictGet?_pyDictUnion {α : Type} (a b : List (String × α)) (k : String)
    (hnd : (b.map Prod.fst).Nodup) :
    dictGet? (pyDictUnion a b) k
      = match dictGet? b k with
        | some v => some v
        | none => dictGet? a k := by
  induction b generalizing a with
  | nil => simp [pyDictUnion, dictGet?]
  | cons p rest ih =>
    simp only [List.map_cons, List.nodup_cons] at hnd
    have hstep : pyDictUnion a (p :: rest) = pyDictUnion (dictInsert p.1 p.2 a) rest := rfl
    rw [hstep, ih (dictInsert p.1 p.2 a) hnd.2]
    by_cases h : p.1 = k
    · subst h
      have hrnone : dictGet? rest p.1 = none := dictGet?_eq_none_of_not_mem_keys rest p.1 hnd.1
      simp [hrnone, dictGet?, dictGet?_dictInsert]
    · have hk : k ≠ p.1 := fun he => h he.symm
      cases hr : dictGet? rest k with
      | some v => simp [dictGet?, h, hr]
      | none => simp [dictGet?, h, hk, dictGet?_dictInsert, hr]

/-- C6: a task's derived `data_nodes` mapping is the union of its input
and output mappings, with the output entry taking precedence over the
input entry on any key collision. -/
theorem task_data_nodes_union (t : Taipy.Task) (k : String)
    (hnd : (t.output.map Prod.fst).Nodup) :
    (∀ dn, dictGet? t.output k = some dn →
      dictGet? (Taipy.Task.data_nodes t) k = some dn) ∧
    (dictGet? t.output k = none →
      dictGet? (Taipy.Task.data_nodes t) k = dictGet? t.input k) := by
  have hu := dictGet?_pyDictUnion t.input t.output k hnd
  constructor
  · intro dn hdn
    rw [Taipy.Task.data_nodes, hu, hdn]
  · intro hnone
    rw [Taipy.Task.data_nodes, hu, hnone]

theorem task_data_nodes_union_witness :
    dictGet? (Taipy.Task.data_nodes tBoth) ("a") = some dnP2 ∧
    dictGet? (Taipy.Task.data_nodes tEx) ("a") = dictGet? tEx.input ("a") :=
  ⟨(task_data_nodes_union tBoth ("a") (by decide)).1 dnP2 (by decide),
   (task_data_nodes_union tEx ("a") (by decide)).2 (by decide)⟩

theorem dictGet?_foldl_nodes (l : List DataNode) (d : List (String × DataNode))
    (k : String) :
    dictGet? (l.foldl (fun acc dn => dictInsert dn.config_id dn acc) d) k
      = match lastWith l k with
        | some dn => some dn
        | none => dictGet? d k := by
  induction l generalizing d with
  | nil => simp [lastWith]
  | cons dn rest ih =>
    rw [List.foldl_cons, ih]
    cases hlw : lastWith rest k with
    | some d2 => simp [lastWith, hlw]
    | none =>
      by_cases h : dn.config_id = k
      · subst h
        simp [lastWith, hlw, dictGet?_dictInsert]
      · simp [lastWith, hlw, h, dictGet?_dictInsert, Ne.symm h]

theorem dictGet?_dictOfNodes (l : List DataNode) (k : String) :
    dictGet? (dictOfNodes l) k = lastWith l k := by
  have h := dictGet?_foldl_nodes l [] k
  unfold dictOfNodes
  rw [h]
  cases lastWith l k <;> simp [dictGet?]

theorem keys_dictInsert {α : Type} (k : String) (v : α) (d : List (String × α)) :
    (dictInsert k v d).map Prod.fst
      = if k ∈ d.map Prod.fst then d.map Prod.fst else d.map Prod.fst ++ [k] := by
  induction d with
  | nil => simp [dictInsert]
  | cons p rest ih =>
    by_cases h : p.1 = k
    · simp [dictInsert, h]
    · by_cases hm : k ∈ rest.map Prod.fst
      · simp [dictInsert, h, ih, hm, Ne.symm h]
      · simp [dictInsert, h, ih, hm, Ne.symm h]

theorem nodup_keys_dictInsert {α : Type} (k : String) (v : α) (d : List (String × α))
    (h : (d.map Prod.fst).Nodup) : ((dictInsert k v d).map Prod.fst).Nodup := by
  rw [keys_dictInsert]
  by_cases hm : k ∈ d.map Prod.fst
  · simp [hm, h]
  · simp [hm, h, List.nodup_append]

theorem nodup_keys_foldl (l : List DataNode) (d : List (String × DataNode))
    (h : (d.map Prod.fst).Nodup) :
    ((l.foldl (fun acc dn => dictInsert dn.config_id dn acc) d).map Prod.fst).Nodup := by
  induction l generalizing d with
  | nil => exact h
  | cons dn rest ih => exact ih _ (nodup_keys_dictInsert _ _ _ h)

/-- C10: constructing a task from an input (or output) iterable whose
data nodes repeat a `config_id` silently keeps, for each key, only the
last such data node in iteration order — the construction succeeds, the
resulting mapping has one entry per distinct config id, and each lookup
returns the last occurrence. -/
theorem task_duplicate_config_id_last_wins (c : String) (inp out : List DataNode)
    (pid : Option String) (u : String) (hv : isValidId c = true) :
    ∃ t, Taipy.Task.create c inp out none pid u = some t ∧
      (∀ k, dictGet? t.input k = lastWith inp k) ∧
      (∀ k, dictGet? t.output k = lastWith out k) ∧
      (t.input.map Prod.fst).Nodup ∧ (t.output.map Prod.fst).Nodup := by
  refine ⟨{ config_id := c, id := Taipy.taskIdOf c u, parent_id := pid,
            input := dictOfNodes inp, output := dictOfNodes out }, ?_, ?_, ?_, ?_, ?_⟩
  · simp [Taipy.Task.create, hv]
  · intro k
    exact dictGet?_dictOfNodes inp k
  · intro k
    exact dictGet?_dictOfNodes out k
  · exact nodup_keys_foldl inp [] (by simp)
  · exact nodup_keys_foldl out [] (by simp)

theorem task_duplicate_config_id_last_wins_witness :
    ∃ t, Taipy.Task.create ("a") [dnS, dnP2] [] none none ("u9") = some t ∧
      (∀ k, dictGet? t.input k = lastWith [dnS, dnP2] k) ∧
      (∀ k, dictGet? t.output k = lastWith [] k) ∧
      (t.input.map Prod.fst).Nodup ∧ (t.output.map Prod.fst).Nodup :=
  task_duplicate_config_id_last_wins ("a") [dnS, dnP2] [] none ("u9") (by decide)

/-- C4: for a valid attribute name that is not a declared attribute,
`Task.__getattr__` resolves the name against the input mapping first,
then the output mapping; a name present in both mappings yields the
input data node; a name matching neither fails with an "is not an
attribute of task" error whose message names the task's id. -/
theorem task_getattr_resolution (t : Taipy.Task) (name : String)
    (hv : isValidId name = true) :
    (∀ dn, dictGet? t.input name = some dn →
      Taipy.Task.getattr t name = Except.ok dn) ∧
    (dictGet? t.input name = none →
      ∀ dn, dictGet? t.output name = some dn →
        Taipy.Task.getattr t name = Except.ok dn) ∧
    (dictGet? t.input name = none → dictGet? t.output name = none →
      ∃ msg, Taipy.Task.getattr t name = Except.error msg ∧
        ∃ s, msg = s ++ t.id) := by
  refine ⟨?_, ?_, ?_⟩
  · intro dn h
    simp [Taipy.Task.getattr, hv, h]
  · intro h1 dn h2
    simp [Taipy.Task.getattr, hv, h1, h2]
  · intro h1 h2
    refine ⟨(name ++ (" is not an attribute of task ")) ++ t.id, ?_,
      name ++ (" is not an attribute of task "), rfl⟩
    simp [Taipy.Task.getattr, hv, h1, h2]

theorem task_getattr_resolution_witness :
    Taipy.Task.getattr tBoth ("a") = Except.ok dnS ∧
    (∃ msg, Taipy.Task.getattr tBoth ("zz") = Except.error msg ∧
      ∃ s, msg = s ++ tBoth.id) :=
  ⟨(task_getattr_resolution tBoth ("a") (by decide)).1 dnS (by decide),
   (task_getattr_resolution tBoth ("zz") (by decide)).2.2 (by decide) (by decide)⟩

/-- C7 (amended): a task constructed without an explicit id — or with
the Python-falsy empty string as id — is assigned the generated id
`TASK_<config_id>_<uuid>`: the fixed prefix `TASK`, the validated config
id and the fresh uuid joined by underscores; a non-empty explicit id is
used unchanged. -/
theorem task_create_id_format (c : String) (inp out : List DataNode)
    (pid : Option String) (u : String) (hv : isValidId c = true) :
    (∃ t, Taipy.Task.create c inp out none pid u = some t ∧
      t.id = (("TASK" ++ "_") ++ c) ++ ("_" ++ u) ∧ t.config_id = c) ∧
    (∀ i : String, i ≠ "" →
      ∃ t, Taipy.Task.create c inp out (some i) pid u = some t ∧ t.id = i) ∧
    (∃ t, Taipy.Task.create c inp out (some ("")) pid u = some t ∧
      t.id = (("TASK" ++ "_") ++ c) ++ ("_" ++ u)) := by
  refine ⟨?_, ?_, ?_⟩
  · exact ⟨{ config_id := c, id := Taipy.taskIdOf c u, parent_id := pid,
             input := dictOfNodes inp, output := dictOfNodes out },
      by simp [Taipy.Task.create, hv], rfl, rfl⟩
  · intro i hi
    refine ⟨{ config_id := c, id := i, parent_id := pid,
              input := dictOfNodes inp, output := dictOfNodes out }, ?_, rfl⟩
    simp [Taipy.Task.create, hv, hi]
  · exact ⟨{ config_id := c, id := Taipy.taskIdOf c u, parent_id := pid,
             input := dictOfNodes inp, output := dictOfNodes out },
      by simp [Taipy.Task.create, hv], rfl⟩

theorem task_create_id_format_witness :
    (∃ t, Taipy.Task.create ("foo") [] [] none none ("u1") = some t ∧
      t.id = (("TASK" ++ "_") ++ ("foo")) ++ ("_" ++ ("u1")) ∧
      t.config_id = ("foo")) ∧
    (∃ t, Taipy.Task.create ("foo") [] [] (some ("myid")) none ("u1") = some t ∧
      t.id = ("myid")) :=
  ⟨(task_create_id_format ("foo") [] [] none ("u1") (by decide)).1,
   (task_create_id_format ("foo") [] [] none ("u1") (by decide)).2.1 ("myid") (by decide)⟩

/-- C7 is false as stated on the empty explicit id: Python `id or ...`
treats the supplied empty string as absent, so a task constructed with
the explicit id `""` does not keep it — the generated id is assigned
instead. -/
theorem task_create_empty_id_cex :
    ∃ t, Taipy.Task.create ("foo") [] [] (some ("")) none ("u1") = some t ∧
      t.id ≠ ("") ∧ t.id = ("TASK_foo_u1") :=
  ⟨{ config_id := "foo", id := "TASK_foo_u1", parent_id := none,
     input := [], output := [] }, by decide, by decide, rfl⟩

/-- C3: the entity created from a configuration holds a copy of the
configuration's properties, not a shared mapping: the fresh cell starts
with the same contents, mutating the entity's properties afterwards
leaves the configuration's properties unchanged, and mutating the
configuration's properties leaves the entity's properties unchanged. -/
theorem property_copy_isolation (cfg : ConfigRef) (ident : String) (h : PropHeap)
    (hv : cfg.props < h.cells.length) :
    heapRead (createEntityFromConfig cfg ident h).2
        (createEntityFromConfig cfg ident h).1.props
      = heapRead h cfg.props ∧
    (createEntityFromConfig cfg ident h).1.props ≠ cfg.props ∧
    (∀ v, heapRead (heapWrite (createEntityFromConfig cfg ident h).2
        (createEntityFromConfig cfg ident h).1.props v) cfg.props
      = heapRead h cfg.props) ∧
    (∀ v, heapRead (heapWrite (createEntityFromConfig cfg ident h).2 cfg.props v)
        (createEntityFromConfig cfg ident h).1.props
      = heapRead h cfg.props) := by
  have hne : h.cells.length ≠ cfg.props := by omega
  refine ⟨?_, ?_, ?_, ?_⟩
  · simp [createEntityFromConfig, heapAlloc, heapRead,
      List.getD_eq_getElem?_getD, List.getElem?_concat_length]
  · simpa [createEntityFromConfig, heapAlloc] using hne
  · intro v
    simp [createEntityFromConfig, heapAlloc, heapWrite, heapRead,
      List.getD_eq_getElem?_getD, List.getElem?_set_ne hne,
      List.getElem?_append_left hv]
  · intro v
    simp [createEntityFromConfig, heapAlloc, heapWrite, heapRead,
      List.getD_eq_getElem?_getD, List.getElem?_set_ne (Ne.symm hne),
      List.getElem?_concat_length]

theorem property_copy_isolation_witness :
    heapRead (createEntityFromConfig cfgRef1 ("DATANODE_name_u") heap1).2
        (createEntityFromConfig cfgRef1 ("DATANODE_name_u") heap1).1.props
      = heapRead heap1 cfgRef1.props ∧
    (createEntityFromConfig cfgRef1 ("DATANODE_name_u") heap1).1.props ≠ cfgRef1.props ∧
    (∀ v, heapRead (heapWrite (createEntityFromConfig cfgRef1 ("DATANODE_name_u") heap1).2
        (createEntityFromConfig cfgRef1 ("DATANODE_name_u") heap1).1.props v) cfgRef1.props
      = heapRead heap1 cfgRef1.props) ∧
    (∀ v, heapRead (heapWrite (createEntityFromConfig cfgRef1 ("DATANODE_name_u") heap1).2
        cfgRef1.props v)
        (createEntityFromConfig cfgRef1 ("DATANODE_name_u") heap1).1.props
      = heapRead heap1 cfgRef1.props) :=
  property_copy_isolation cfgRef1 ("DATANODE_name_u") heap1 (by decide)
